import Mathlib

/-!
Verification development for the papersmap task-management web application.

The file embeds, as executable Lean definitions, the pure business logic of the
repository: the due-date classifiers of the issues/projects pages and of the
dashboard, the status normalisation, the role resolver, the guarded member
mutations, and the scoped task query.  Timestamps are modelled as `Int`
milliseconds since the epoch (the value of `Date.getTime()`); the local time
zone is an explicit offset parameter `o` (local clock = instant + `o`).
ISO-8601 date-key strings (`iso.slice(0, 10)`) compare lexicographically
exactly as their calendar dates, so they are modelled as the integer UTC day
number of the instant.
-/

/-- Task status union type, from `type TaskStatus = 'todo' | 'in_progress' | 'done'`. -/
inductive TaskStatus where
  | todo
  | in_progress
  | done
deriving DecidableEq, Repr

/-- Organization role union type, from `type Role = 'admin' | 'manager' | 'member'`. -/
inductive OrgRole where
  | admin
  | manager
  | member
deriving DecidableEq, Repr

/-- Milliseconds in one day. -/
def dayMs : Int := 86400000

/-- Task row of the issues / projects pages (`type ProjectTask`); `created_at`
and `expected_finish_at` are instants in milliseconds. -/
structure ProjectTask where
  id : String
  project_id : String
  org_id : Option String
  description : String
  assignee_user_id : Option String
  status : TaskStatus
  created_at : Int
  expected_finish_at : Option Int
deriving DecidableEq, Repr

/-- `startOfLocalDay(d)` builds `new Date(y, m, day, 0, 0, 0, 0)` in the local
zone: the unique instant `s` in the same local day with local clock midnight,
i.e. `s = d - ((d + o) mod dayMs)` with mathematical (floor) remainder. -/
def startOfLocalDay (o d : Int) : Int := d - (d + o) % dayMs

/-- `endOfLocalDay(d)` builds `new Date(y, m, day, 23, 59, 59, 999)`:
the start of the local day plus `dayMs - 1`. -/
def endOfLocalDay (o d : Int) : Int := startOfLocalDay o d + (dayMs - 1)

/-- `isDueToday` from the issues page (identical copy in the projects page).
The source reads `new Date()` inside the function; the instant is passed as
the parameter `now`, and the local zone offset as `o`. -/
def isDueToday (o now : Int) (task : ProjectTask) : Bool :=
  if task.status == .done then false
  else match task.expected_finish_at with
    | none => false
    | some due => decide (startOfLocalDay o now ≤ due) && decide (due ≤ endOfLocalDay o now)

/-- `isOverdue` from the issues page (identical copy in the projects page):
`due.getTime() < now.getTime()` for a non-done task with an expected finish. -/
def isOverdue (now : Int) (task : ProjectTask) : Bool :=
  if task.status == .done then false
  else match task.expected_finish_at with
    | none => false
    | some due => decide (due < now)

/-- Raw dashboard task row (`type TaskRowRaw`): `status` is an arbitrary string
as returned by the database. -/
structure TaskRowRaw where
  id : String
  org_id : Option String
  project_id : String
  description : String
  assignee_user_id : Option String
  status : String
  created_at : Int
  expected_finish_at : Option Int
deriving DecidableEq, Repr

/-- Converted dashboard task row (`type TaskRow`): `status` is the union type. -/
structure TaskRow where
  id : String
  org_id : Option String
  project_id : String
  description : String
  assignee_user_id : Option String
  status : TaskStatus
  created_at : Int
  expected_finish_at : Option Int
deriving DecidableEq, Repr

/-- `toTaskStatus` from the dashboard: keep a known status string, fall back to
`todo` for anything else. -/
def toTaskStatus (status : String) : TaskStatus :=
  if status == "todo" then .todo
  else if status == "in_progress" then .in_progress
  else if status == "done" then .done
  else .todo

/-- The database string denoted by a `TaskStatus` value (the TypeScript
function returns the input string itself; the Lean enum together with this
map encodes that identity). -/
def statusToString : TaskStatus → String
  | .todo => "todo"
  | .in_progress => "in_progress"
  | .done => "done"

/-- The `convertedTasks` map of `loadDashboardData`: normalise the raw status. -/
def convertTask (t : TaskRowRaw) : TaskRow :=
  { id := t.id
    org_id := t.org_id
    project_id := t.project_id
    description := t.description
    assignee_user_id := t.assignee_user_id
    status := toTaskStatus t.status
    created_at := t.created_at
    expected_finish_at := t.expected_finish_at }

/-- `rawTasks.map(task => ({...task, status: toTaskStatus(task.status)}))`. -/
def convertTasks (l : List TaskRowRaw) : List TaskRow := l.map convertTask

/-- `toUTCDateKey` / `formatISODate`: the `YYYY-MM-DD` key of an instant,
modelled as its UTC day number (date keys compare lexicographically exactly
as day numbers). `Int` division is floor division for the positive `dayMs`. -/
def toUTCDateKey (t : Int) : Int := t / dayMs

/-- `startOfTodayUTC()`: `d.setUTCHours(0,0,0,0)` on the current instant. -/
def startOfTodayUTC (now : Int) : Int := now - now % dayMs

/-- `addDaysUTC(date, days)`: shift an instant by whole UTC days. -/
def addDaysUTC (date days : Int) : Int := date + days * dayMs

/-- `formatISODate(task.expected_finish_at)` as an optional date key; the
dash placeholder for a missing value is `none`. -/
def efDateKey (t : TaskRow) : Option Int := t.expected_finish_at.map toUTCDateKey

/-- `todayKey` of the dashboard: key of the start of the current UTC day. -/
def todayKey (now : Int) : Int := toUTCDateKey (startOfTodayUTC now)

/-- `weekEndKey` of the dashboard: key of `addDaysUTC(todayUTC, 7)`. -/
def weekEndKey (now : Int) : Int := toUTCDateKey (addDaysUTC (startOfTodayUTC now) 7)

/-- Dashboard KPI overdue bucket: `hasEF && status !== 'done' && ef !== dash
&& ef < todayKey`. -/
def kpiOverdue (hasEF : Bool) (now : Int) (t : TaskRow) : Bool :=
  hasEF && !(t.status == .done) &&
    (match efDateKey t with
     | none => false
     | some k => decide (k < todayKey now))

/-- Dashboard KPI due-today bucket: `ef === todayKey`. -/
def kpiDueToday (hasEF : Bool) (now : Int) (t : TaskRow) : Bool :=
  hasEF && !(t.status == .done) &&
    (match efDateKey t with
     | none => false
     | some k => decide (k = todayKey now))

/-- Dashboard KPI due-this-week bucket: `ef > todayKey && ef <= weekEndKey`. -/
def kpiDueThisWeek (hasEF : Bool) (now : Int) (t : TaskRow) : Bool :=
  hasEF && !(t.status == .done) &&
    (match efDateKey t with
     | none => false
     | some k => decide (todayKey now < k) && decide (k ≤ weekEndKey now))

/-- End of the current UTC day: start of today plus `dayMs - 1`. -/
def endOfTodayUTC (now : Int) : Int := startOfTodayUTC now + (dayMs - 1)

/-- Boolean form of the `sortByEarliestEF` comparator of the dashboard action
lists: ascending by expected-finish date key, rows with a missing key after
every row with one (the comparator returns 1 when only the left key is the
dash placeholder and -1 when only the right one is). -/
def efLEb (a b : TaskRow) : Bool :=
  match efDateKey a, efDateKey b with
  | none, none => true
  | none, some _ => false
  | some _, none => true
  | some x, some y => decide (x ≤ y)

/-- Propositional form of the `sortByEarliestEF` order. -/
def EFle (a b : TaskRow) : Prop := efLEb a b = true

instance : DecidableRel EFle := fun a b => instDecidableEqBool (efLEb a b) true

instance : IsTotal TaskRow EFle where
  total a b := by
    unfold EFle efLEb
    cases efDateKey a <;> cases efDateKey b <;> simp
    omega

instance : IsTrans TaskRow EFle where
  trans a b c := by
    unfold EFle efLEb
    cases efDateKey a <;> cases efDateKey b <;> cases efDateKey c <;> simp
    omega

/-- Filter of the dashboard overdue action list:
`status !== 'done' && ef !== dash && ef < todayKey`. -/
def overdueFilter (now : Int) (t : TaskRow) : Bool :=
  !(t.status == .done) &&
    (match efDateKey t with
     | none => false
     | some k => decide (k < todayKey now))

/-- Filter of the dashboard due-today action list: `ef === todayKey`. -/
def dueTodayFilter (now : Int) (t : TaskRow) : Bool :=
  !(t.status == .done) &&
    (match efDateKey t with
     | none => false
     | some k => decide (k = todayKey now))

/-- Filter of the dashboard due-this-week action list:
`ef > todayKey && ef <= weekEndKey`. -/
def dueThisWeekFilter (now : Int) (t : TaskRow) : Bool :=
  !(t.status == .done) &&
    (match efDateKey t with
     | none => false
     | some k => decide (todayKey now < k) && decide (k ≤ weekEndKey now))

/-- Dashboard `actionLists.overdue`: filter, sort by earliest expected finish,
keep the first 8.  The JavaScript `Array.sort` with the `sortByEarliestEF`
comparator is modelled by the stable `insertionSort` over the same order. -/
def actionOverdue (hasEF : Bool) (now : Int) (tasks : List TaskRow) : List TaskRow :=
  if hasEF then (List.insertionSort EFle (tasks.filter (overdueFilter now))).take 8 else []

/-- Dashboard `actionLists.dueToday`. -/
def actionDueToday (hasEF : Bool) (now : Int) (tasks : List TaskRow) : List TaskRow :=
  if hasEF then (List.insertionSort EFle (tasks.filter (dueTodayFilter now))).take 8 else []

/-- Dashboard `actionLists.dueThisWeek`. -/
def actionDueThisWeek (hasEF : Bool) (now : Int) (tasks : List TaskRow) : List TaskRow :=
  if hasEF then (List.insertionSort EFle (tasks.filter (dueThisWeekFilter now))).take 8 else []

/-- Membership row of the members page and sidebar (`type Membership`). -/
structure MembershipRow where
  org_id : String
  role : OrgRole
  is_active : Bool
deriving DecidableEq, Repr

/-- Member view row of the members page (`type MemberVM`). -/
structure MemberVM where
  org_id : String
  user_id : String
  role : OrgRole
  is_active : Bool
  display_name : String
  email : Option String
deriving DecidableEq, Repr

/-- The members page state consulted by `changeRole` and `toggleActive`:
`orgId`, `userId`, `myRole` and the loaded `members` list. -/
structure MembersState where
  orgId : Option String
  userId : Option String
  myRole : OrgRole
  members : List MemberVM
deriving DecidableEq, Repr

/-- `isSupervisor = myRole === 'admin' || myRole === 'manager'`. -/
def isSupervisor (st : MembersState) : Bool :=
  st.myRole == .admin || st.myRole == .manager

/-- `activeAdminCount`: members with `is_active` and role `admin`. -/
def activeAdminCount (members : List MemberVM) : Nat :=
  (members.filter (fun m => m.is_active && m.role == .admin)).length

/-- Outcome of a guarded member mutation: an early return without a message,
a rejection with the surfaced error message, or the issued database update. -/
inductive MemberAction where
  | noop
  | rejected (reason : String)
  | roleUpdate (orgId userId : String) (role : OrgRole)
  | activeUpdate (orgId userId : String) (active : Bool)
deriving DecidableEq, Repr

/-- `changeRole(targetUserId, nextRole)` of the members page: early return
when no organization is selected or the actor is no supervisor; reject
demoting the sole active admin; otherwise issue the role update. -/
def changeRole (st : MembersState) (targetUserId : String) (nextRole : OrgRole) : MemberAction :=
  match st.orgId with
  | none => .noop
  | some orgId =>
    if !(isSupervisor st) then .noop
    else
      match st.members.find? (fun m => m.user_id == targetUserId) with
      | some target =>
        if target.role == .admin && target.is_active
            && decide (activeAdminCount st.members ≤ 1) && !(nextRole == .admin) then
          .rejected "此組織目前只有 1 位 admin，不能將唯一 admin 降級。"
        else .roleUpdate orgId targetUserId nextRole
      | none => .roleUpdate orgId targetUserId nextRole

/-- `toggleActive(targetUserId)` of the members page: early returns for a
missing organization, a non-supervisor actor, or an unknown target; reject
self-deactivation and deactivating the sole active admin; otherwise issue
the activation toggle. -/
def toggleActive (st : MembersState) (targetUserId : String) : MemberAction :=
  match st.orgId with
  | none => .noop
  | some orgId =>
    if !(isSupervisor st) then .noop
    else if st.userId == some targetUserId then
      .rejected "不能停用自己（避免把自己鎖在系統外）。"
    else
      match st.members.find? (fun m => m.user_id == targetUserId) with
      | none => .noop
      | some target =>
        if target.role == .admin && target.is_active
            && decide (activeAdminCount st.members ≤ 1) then
          .rejected "此組織目前只有 1 位 admin，不能停用唯一 admin。"
        else .activeUpdate orgId targetUserId (!target.is_active)

/-- The role fold of `Sidebar.loadUserData`:
`roles.includes('admin') ? 'admin' : roles.includes('manager') ? 'manager' : 'member'`. -/
def finalRole (roles : List OrgRole) : OrgRole :=
  if roles.contains .admin then .admin
  else if roles.contains .manager then .manager
  else .member

/-- The roles of the active memberships: the query filters on
`is_active = true` and the rows are mapped to their `role` column. -/
def activeRoles (ms : List MembershipRow) : List OrgRole :=
  (ms.filter (fun m => m.is_active)).map (fun m => m.role)

/-- Effective role computed by `Sidebar.loadUserData` from a membership list. -/
def loadUserDataRole (ms : List MembershipRow) : OrgRole :=
  finalRole (activeRoles ms)

/-- Database task row as selected by `loadTasks` of the issues page. -/
structure DBTaskRow where
  id : String
  project_id : String
  org_id : String
  description : String
  assignee_user_id : Option String
  status : String
  created_at : Int
  expected_finish_at : Option Int
deriving DecidableEq, Repr

/-- The query built by `loadTasks` (same shape in `loadDashboardData`): filter
the table on the organization, and additionally on
`assignee_user_id = userId` unless the role is admin or manager.  The
`created_at` ordering of the source only permutes the result and is omitted. -/
def loadTasksQuery (table : List DBTaskRow) (orgId : String) (role : OrgRole)
    (userId : String) : List DBTaskRow :=
  let base := table.filter (fun t => t.org_id == orgId)
  if role == .admin || role == .manager then base
  else base.filter (fun t => t.assignee_user_id == some userId)

/-- Any element of a bounded sorted action list satisfies its filter. -/
theorem filter_of_mem_boundedSorted {p : TaskRow → Bool} {l : List TaskRow} {t : TaskRow}
    (h : t ∈ (List.insertionSort EFle (l.filter p)).take 8) : p t = true := by
  have h1 := List.mem_of_mem_take h
  rw [List.mem_insertionSort] at h1
  exact (List.mem_filter.mp h1).2

/-- A bounded sorted action list has at most 8 elements and is sorted. -/
theorem boundedSorted_spec (p : TaskRow → Bool) (l : List TaskRow) :
    ((List.insertionSort EFle (l.filter p)).take 8).length ≤ 8 ∧
    List.Sorted EFle ((List.insertionSort EFle (l.filter p)).take 8) := by
  constructor
  · exact List.length_take_le 8 _
  · exact List.Pairwise.sublist (List.take_sublist 8 _) (List.sorted_insertionSort EFle _)

/-- Claim C1: a task whose status is done is never classified due today or
overdue by the issues/projects classifier, never counted in the dashboard
overdue, due-today or due-this-week KPI buckets, and never listed in the
corresponding bounded action lists, regardless of its expected-finish value. -/
theorem C1_done_never_flagged (o now : Int) (t : ProjectTask) (hasEF : Bool) (nowD : Int)
    (t2 : TaskRow) (tasks : List TaskRow)
    (h1 : t.status = TaskStatus.done) (h2 : t2.status = TaskStatus.done) :
    isDueToday o now t = false ∧ isOverdue now t = false ∧
    kpiOverdue hasEF nowD t2 = false ∧ kpiDueToday hasEF nowD t2 = false ∧
    kpiDueThisWeek hasEF nowD t2 = false ∧
    t2 ∉ actionOverdue hasEF nowD tasks ∧ t2 ∉ actionDueToday hasEF nowD tasks ∧
    t2 ∉ actionDueThisWeek hasEF nowD tasks := by
  refine ⟨?_, ?_, ?_, ?_, ?_, ?_, ?_, ?_⟩
  · simp [isDueToday, h1]
  · simp [isOverdue, h1]
  · simp [kpiOverdue, h2]
  · simp [kpiDueToday, h2]
  · simp [kpiDueThisWeek, h2]
  · intro hmem
    cases hasEF with
    | false => simp [actionOverdue] at hmem
    | true =>
      have hp := filter_of_mem_boundedSorted (by simpa [actionOverdue] using hmem)
      simp [overdueFilter, h2] at hp
  · intro hmem
    cases hasEF with
    | false => simp [actionDueToday] at hmem
    | true =>
      have hp := filter_of_mem_boundedSorted (by simpa [actionDueToday] using hmem)
      simp [dueTodayFilter, h2] at hp
  · intro hmem
    cases hasEF with
    | false => simp [actionDueThisWeek] at hmem
    | true =>
      have hp := filter_of_mem_boundedSorted (by simpa [actionDueThisWeek] using hmem)
      simp [dueThisWeekFilter, h2] at hp

/-- Witness for C1: a done task whose expected finish lies one day in the
past is flagged nowhere. -/
theorem C1_witness :
    isDueToday 0 86400000
      { id := "t", project_id := "p", org_id := some "o", description := "",
        assignee_user_id := some "u", status := TaskStatus.done,
        created_at := 0, expected_finish_at := some 0 } = false ∧
    isOverdue 86400000
      { id := "t", project_id := "p", org_id := some "o", description := "",
        assignee_user_id := some "u", status := TaskStatus.done,
        created_at := 0, expected_finish_at := some 0 } = false ∧
    kpiOverdue true 86400000
      { id := "t", org_id := some "o", project_id := "p", description := "",
        assignee_user_id := some "u", status := TaskStatus.done,
        created_at := 0, expected_finish_at := some 0 } = false ∧
    kpiDueToday true 86400000
      { id := "t", org_id := some "o", project_id := "p", description := "",
        assignee_user_id := some "u", status := TaskStatus.done,
        created_at := 0, expected_finish_at := some 0 } = false ∧
    kpiDueThisWeek true 86400000
      { id := "t", org_id := some "o", project_id := "p", description := "",
        assignee_user_id := some "u", status := TaskStatus.done,
        created_at := 0, expected_finish_at := some 0 } = false := by
  have h := C1_done_never_flagged 0 86400000
    { id := "t", project_id := "p", org_id := some "o", description := "",
      assignee_user_id := some "u", status := TaskStatus.done,
      created_at := 0, expected_finish_at := some 0 } true 86400000
    { id := "t", org_id := some "o", project_id := "p", description := "",
      assignee_user_id := some "u", status := TaskStatus.done,
      created_at := 0, expected_finish_at := some 0 } [] rfl rfl
  exact ⟨h.1, h.2.1, h.2.2.1, h.2.2.2.1, h.2.2.2.2.1⟩

/-- Claim C10: status normalisation is the identity on the three known status
strings, maps every other string to todo, and is applied to every loaded row. -/
theorem C10_status_normalisation :
    (∀ st : TaskStatus, toTaskStatus (statusToString st) = st) ∧
    (∀ s : String, s ≠ "todo" → s ≠ "in_progress" → s ≠ "done" →
      toTaskStatus s = TaskStatus.todo) ∧
    (∀ l : List TaskRowRaw,
      (convertTasks l).map TaskRow.status = l.map (fun r => toTaskStatus r.status)) := by
  refine ⟨?_, ?_, ?_⟩
  · intro st
    cases st <;> rfl
  · intro s hs1 hs2 hs3
    simp [toTaskStatus, hs1, hs2, hs3]
  · intro l
    simp [convertTasks, List.map_map]
    intro a _
    rfl

/-- Witness for C10: an unknown status string falls back to todo and a known
one is kept. -/
theorem C10_witness :
    toTaskStatus "banana" = TaskStatus.todo ∧
    toTaskStatus (statusToString TaskStatus.done) = TaskStatus.done := by
  exact ⟨C10_status_normalisation.2.1 "banana" (by decide) (by decide) (by decide),
         C10_status_normalisation.1 TaskStatus.done⟩

/-- Claim C6: the task query of a member-role actor only returns rows of the
organization assigned to that actor, while an admin or manager receives every
row of the organization. -/
theorem C6_scoped_task_query (table : List DBTaskRow) (o uid : String) (role : OrgRole) :
    ((role = OrgRole.admin ∨ role = OrgRole.manager) →
      ∀ t, t ∈ loadTasksQuery table o role uid ↔ (t ∈ table ∧ t.org_id = o)) ∧
    (role ≠ OrgRole.admin → role ≠ OrgRole.manager →
      ∀ t, t ∈ loadTasksQuery table o role uid ↔
        (t ∈ table ∧ t.org_id = o ∧ t.assignee_user_id = some uid)) := by
  constructor
  · intro hsup t
    have hb : (role == OrgRole.admin || role == OrgRole.manager) = true := by
      rcases hsup with h | h <;> simp [h]
    simp [loadTasksQuery, hb, List.mem_filter]
  · intro h1 h2 t
    have hb : (role == OrgRole.admin || role == OrgRole.manager) = false := by
      cases role <;> simp_all
    simp [loadTasksQuery, hb, List.mem_filter, and_assoc]
    tauto

/-- Witness for C6: on a two-row table, the member query keeps only the row
assigned to the member, and the admin query keeps every organization row. -/
theorem C6_witness :
    (({ id := "t1", project_id := "p", org_id := "o", description := "",
        assignee_user_id := some "u2", status := "todo", created_at := 0,
        expected_finish_at := none } : DBTaskRow) ∈
      loadTasksQuery
        [{ id := "t1", project_id := "p", org_id := "o", description := "",
           assignee_user_id := some "u2", status := "todo", created_at := 0,
           expected_finish_at := none }] "o" OrgRole.member "u1" ↔
      (({ id := "t1", project_id := "p", org_id := "o", description := "",
          assignee_user_id := some "u2", status := "todo", created_at := 0,
          expected_finish_at := none } : DBTaskRow) ∈
        [({ id := "t1", project_id := "p", org_id := "o", description := "",
            assignee_user_id := some "u2", status := "todo", created_at := 0,
            expected_finish_at := none } : DBTaskRow)] ∧
        ("o" : String) = "o" ∧ (some "u2" : Option String) = some "u1")) ∧
    (({ id := "t1", project_id := "p", org_id := "o", description := "",
        assignee_user_id := some "u2", status := "todo", created_at := 0,
        expected_finish_at := none } : DBTaskRow) ∈
      loadTasksQuery
        [{ id := "t1", project_id := "p", org_id := "o", description := "",
           assignee_user_id := some "u2", status := "todo", created_at := 0,
           expected_finish_at := none }] "o" OrgRole.admin "u1" ↔
      (({ id := "t1", project_id := "p", org_id := "o", description := "",
          assignee_user_id := some "u2", status := "todo", created_at := 0,
          expected_finish_at := none } : DBTaskRow) ∈
        [({ id := "t1", project_id := "p", org_id := "o", description := "",
            assignee_user_id := some "u2", status := "todo", created_at := 0,
            expected_finish_at := none } : DBTaskRow)] ∧
        ("o" : String) = "o")) := by
  constructor
  · exact (C6_scoped_task_query _ "o" "u1" OrgRole.member).2 (by decide) (by decide) _
  · exact (C6_scoped_task_query _ "o" "u1" OrgRole.admin).1 (Or.inl rfl) _

/-- Claim C9: every bounded action list of the dashboard holds at most 8
tasks and is sorted ascending by expected-finish date key, rows without an
expected finish ordered after all rows with one. -/
theorem C9_bounded_sorted_action_lists (hasEF : Bool) (now : Int) (tasks : List TaskRow) :
    ((actionOverdue hasEF now tasks).length ≤ 8 ∧
      List.Sorted EFle (actionOverdue hasEF now tasks)) ∧
    ((actionDueToday hasEF now tasks).length ≤ 8 ∧
      List.Sorted EFle (actionDueToday hasEF now tasks)) ∧
    ((actionDueThisWeek hasEF now tasks).length ≤ 8 ∧
      List.Sorted EFle (actionDueThisWeek hasEF now tasks)) := by
  cases hasEF with
  | false => simp [actionOverdue, actionDueToday, actionDueThisWeek]
  | true =>
    refine ⟨?_, ?_, ?_⟩
    · simpa [actionOverdue] using boundedSorted_spec (overdueFilter now) tasks
    · simpa [actionDueToday] using boundedSorted_spec (dueTodayFilter now) tasks
    · simpa [actionDueThisWeek] using boundedSorted_spec (dueThisWeekFilter now) tasks

/-- The active-roles list contains a role exactly when some active membership
holds that role. -/
theorem mem_activeRoles (ms : List MembershipRow) (r : OrgRole) :
    r ∈ activeRoles ms ↔ ∃ m ∈ ms, m.is_active = true ∧ m.role = r := by
  simp [activeRoles, List.mem_filter]
  constructor
  · rintro ⟨m, ⟨hm, ha⟩, hr⟩
    exact ⟨m, hm, ha, hr⟩
  · rintro ⟨m, hm, ha, hr⟩
    exact ⟨m, ⟨hm, ha⟩, hr⟩

/-- Claim C3: the effective role of the sidebar fold is admin when some active
membership is admin, else manager when some is manager, else member, and the
result is invariant under reordering of the membership list. -/
theorem C3_effective_role (ms ms2 : List MembershipRow) (hperm : ms.Perm ms2) :
    loadUserDataRole ms = loadUserDataRole ms2 ∧
    (loadUserDataRole ms = OrgRole.admin ↔
      ∃ m ∈ ms, m.is_active = true ∧ m.role = OrgRole.admin) ∧
    (loadUserDataRole ms = OrgRole.manager ↔
      (¬∃ m ∈ ms, m.is_active = true ∧ m.role = OrgRole.admin) ∧
      ∃ m ∈ ms, m.is_active = true ∧ m.role = OrgRole.manager) ∧
    (loadUserDataRole ms = OrgRole.member ↔
      (¬∃ m ∈ ms, m.is_active = true ∧ m.role = OrgRole.admin) ∧
      ¬∃ m ∈ ms, m.is_active = true ∧ m.role = OrgRole.manager) := by
  have hp2 : (activeRoles ms).Perm (activeRoles ms2) := (hperm.filter _).map _
  constructor
  · simp [loadUserDataRole, finalRole, hp2.mem_iff]
  · rw [← mem_activeRoles ms OrgRole.admin, ← mem_activeRoles ms OrgRole.manager]
    by_cases hA : OrgRole.admin ∈ activeRoles ms <;>
      by_cases hM : OrgRole.manager ∈ activeRoles ms <;>
      simp [loadUserDataRole, finalRole, hA, hM]

/-- Witness for C3: a member membership listed before an active admin
membership still resolves to admin, in either order. -/
theorem C3_witness :
    loadUserDataRole
      [{ org_id := "o", role := OrgRole.member, is_active := true },
       { org_id := "o", role := OrgRole.admin, is_active := true }] =
    loadUserDataRole
      [{ org_id := "o", role := OrgRole.admin, is_active := true },
       { org_id := "o", role := OrgRole.member, is_active := true }] ∧
    loadUserDataRole
      [{ org_id := "o", role := OrgRole.member, is_active := true },
       { org_id := "o", role := OrgRole.admin, is_active := true }] = OrgRole.admin := by
  have h := C3_effective_role
    [{ org_id := "o", role := OrgRole.member, is_active := true },
     { org_id := "o", role := OrgRole.admin, is_active := true }]
    [{ org_id := "o", role := OrgRole.admin, is_active := true },
     { org_id := "o", role := OrgRole.member, is_active := true }] (by decide)
  exact ⟨h.1, h.2.1.mpr (by decide)⟩

/-- Counterexample for C4: with now at 1970-01-01T00:00:00Z, a todo task with
expected finish 1970-01-08T00:00:01Z lies strictly after now plus 7 days yet
is still counted due this week by the dashboard bucket. -/
theorem C4_counterexample :
    kpiDueThisWeek true 0
      { id := "t", org_id := some "o", project_id := "p", description := "",
        assignee_user_id := some "u", status := TaskStatus.todo,
        created_at := 0, expected_finish_at := some 604801000 } = true ∧
    ¬((604801000 : Int) ≤ 0 + 7 * dayMs) := by
  constructor
  · rfl
  · decide

/-- Claim C4 (amended): for a fixed now, a non-done task with expected finish
equal to now is due today and not overdue; the issues-page due-today class
holds exactly when the expected finish lies in the inclusive local-day
interval of now; the dashboard due-this-week bucket holds exactly when the
expected finish is strictly after the end of today and on or before the end
of the day seven days after today (day granularity, not now plus 7 days as
an instant). -/
theorem C4_amended (o now now2 : Int) (t : ProjectTask) (t2 : TaskRow)
    (hnd : t.status ≠ TaskStatus.done) :
    (t.expected_finish_at = some now → isDueToday o now t = true ∧ isOverdue now t = false) ∧
    (isDueToday o now t = true ↔ ∃ d, t.expected_finish_at = some d ∧
      startOfLocalDay o now ≤ d ∧ d ≤ endOfLocalDay o now) ∧
    (kpiDueThisWeek true now2 t2 = true ↔ t2.status ≠ TaskStatus.done ∧
      ∃ d, t2.expected_finish_at = some d ∧
        endOfTodayUTC now2 < d ∧ d ≤ endOfTodayUTC now2 + 7 * dayMs) := by
  have hs : (t.status == TaskStatus.done) = false := beq_eq_false_iff_ne.mpr hnd
  refine ⟨?_, ?_, ?_⟩
  · intro hef
    constructor
    · simp [isDueToday, hs, hef, startOfLocalDay, endOfLocalDay, dayMs]
      omega
    · simp [isOverdue, hs, hef]
  · rcases hd : t.expected_finish_at with _ | d
    · simp [isDueToday, hs, hd]
    · simp [isDueToday, hs, hd]
  · by_cases hst : t2.status = TaskStatus.done
    · simp [kpiDueThisWeek, hst]
    · have hs2 : (t2.status == TaskStatus.done) = false := beq_eq_false_iff_ne.mpr hst
      rcases hd : t2.expected_finish_at with _ | d
      · simp [kpiDueThisWeek, efDateKey, hs2, hd, hst]
      · simp [kpiDueThisWeek, efDateKey, hs2, hd, hst, toUTCDateKey, todayKey, weekEndKey,
              startOfTodayUTC, addDaysUTC, endOfTodayUTC, dayMs]
        omega

/-- Witness for C4 (amended): a task expected to finish exactly at noon of the
current local day is due today and not overdue, and a task expected on day 7
after today is due this week. -/
theorem C4_witness :
    isDueToday 0 43200000
      { id := "t", project_id := "p", org_id := some "o", description := "",
        assignee_user_id := some "u", status := TaskStatus.todo,
        created_at := 0, expected_finish_at := some 43200000 } = true ∧
    isOverdue 43200000
      { id := "t", project_id := "p", org_id := some "o", description := "",
        assignee_user_id := some "u", status := TaskStatus.todo,
        created_at := 0, expected_finish_at := some 43200000 } = false ∧
    kpiDueThisWeek true 0
      { id := "t", org_id := some "o", project_id := "p", description := "",
        assignee_user_id := some "u", status := TaskStatus.todo,
        created_at := 0, expected_finish_at := some 604800000 } = true := by
  have h := C4_amended 0 43200000 0
    { id := "t", project_id := "p", org_id := some "o", description := "",
      assignee_user_id := some "u", status := TaskStatus.todo,
      created_at := 0, expected_finish_at := some 43200000 }
    { id := "t", org_id := some "o", project_id := "p", description := "",
      assignee_user_id := some "u", status := TaskStatus.todo,
      created_at := 0, expected_finish_at := some 604800000 } (by decide)
  exact ⟨(h.1 rfl).1, (h.1 rfl).2,
         h.2.2.mpr ⟨by decide, 604800000, rfl, by decide, by decide⟩⟩

/-- Counterexample for C5: on the issues/projects pages, a todo task due at
01:00 of the current local day is reported both due today and overdue when
now is noon of the same day. -/
theorem C5_counterexample :
    isDueToday 0 43200000
      { id := "t", project_id := "p", org_id := some "o", description := "",
        assignee_user_id := some "u", status := TaskStatus.todo,
        created_at := 0, expected_finish_at := some 3600000 } = true ∧
    isOverdue 43200000
      { id := "t", project_id := "p", org_id := some "o", description := "",
        assignee_user_id := some "u", status := TaskStatus.todo,
        created_at := 0, expected_finish_at := some 3600000 } = true := by
  constructor
  · rfl
  · rfl

/-- Claim C5 (amended): for a fixed now the dashboard KPI buckets overdue,
due-today and due-this-week are pairwise disjoint; the issues/projects badge
pair, by contrast, can flag one task both due today and overdue, and the
in-progress class is an independent axis rather than an exclusive one. -/
theorem C5_amended (hasEF : Bool) (now : Int) (t : TaskRow) :
    ¬(kpiOverdue hasEF now t = true ∧ kpiDueToday hasEF now t = true) ∧
    ¬(kpiOverdue hasEF now t = true ∧ kpiDueThisWeek hasEF now t = true) ∧
    ¬(kpiDueToday hasEF now t = true ∧ kpiDueThisWeek hasEF now t = true) := by
  rcases hd : t.expected_finish_at with _ | d <;>
    refine ⟨?_, ?_, ?_⟩ <;> rintro ⟨h1, h2⟩ <;>
    simp [kpiOverdue, kpiDueToday, kpiDueThisWeek, efDateKey, hd, toUTCDateKey,
          todayKey, weekEndKey, startOfTodayUTC, addDaysUTC, dayMs] at h1 h2 <;>
    omega

/-- Witness for C5 (amended): a task counted overdue on 1970-01-02 is not in
the due-today bucket. -/
theorem C5_witness :
    kpiDueToday true 90000000
      { id := "t", org_id := some "o", project_id := "p", description := "",
        assignee_user_id := some "u", status := TaskStatus.todo,
        created_at := 0, expected_finish_at := some 3600000 } = false := by
  cases hb : kpiDueToday true 90000000
      { id := "t", org_id := some "o", project_id := "p", description := "",
        assignee_user_id := some "u", status := TaskStatus.todo,
        created_at := 0, expected_finish_at := some 3600000 }
  · rfl
  · exact absurd ⟨by rfl, hb⟩ (C5_amended true 90000000
      { id := "t", org_id := some "o", project_id := "p", description := "",
        assignee_user_id := some "u", status := TaskStatus.todo,
        created_at := 0, expected_finish_at := some 3600000 }).1

/-- Claim C2: with exactly one active admin, demoting that admin to a
non-admin role or deactivating them is rejected (no update issued); with two
or more active admins the sole-admin guard fires for neither mutation, and a
supervisor actor who is not the target gets the update issued. -/
theorem C2_sole_admin_guard (st : MembersState) (o tid : String) (target : MemberVM)
    (nextRole : OrgRole)
    (horg : st.orgId = some o) (hsup : isSupervisor st = true)
    (hfind : st.members.find? (fun m => m.user_id == tid) = some target) :
    ((activeAdminCount st.members = 1 ∧ target.role = OrgRole.admin ∧
        target.is_active = true) →
      (nextRole ≠ OrgRole.admin →
        changeRole st tid nextRole =
          MemberAction.rejected "此組織目前只有 1 位 admin，不能將唯一 admin 降級。") ∧
      (st.userId ≠ some tid →
        toggleActive st tid =
          MemberAction.rejected "此組織目前只有 1 位 admin，不能停用唯一 admin。")) ∧
    (2 ≤ activeAdminCount st.members →
      changeRole st tid nextRole = MemberAction.roleUpdate o tid nextRole ∧
      (st.userId ≠ some tid →
        toggleActive st tid = MemberAction.activeUpdate o tid (!target.is_active))) := by
  constructor
  · rintro ⟨hcount, hrole, hactive⟩
    constructor
    · intro hnr
      have hnrb : (nextRole == OrgRole.admin) = false := beq_eq_false_iff_ne.mpr hnr
      simp [changeRole, horg, hsup, hfind, hrole, hactive, hcount, hnrb]
    · intro hneq
      have hneqb : (st.userId == some tid) = false := beq_eq_false_iff_ne.mpr hneq
      simp [toggleActive, horg, hsup, hneqb, hfind, hrole, hactive, hcount]
  · intro h2
    have hc : decide (activeAdminCount st.members ≤ 1) = false := by
      simp
      omega
    constructor
    · simp [changeRole, horg, hsup, hfind, hc]
    · intro hneq
      have hneqb : (st.userId == some tid) = false := beq_eq_false_iff_ne.mpr hneq
      simp [toggleActive, horg, hsup, hneqb, hfind, hc]

/-- Witness for C2: in an organization with one active admin a manager can
neither demote nor deactivate the admin, while with two active admins both
mutations on one admin go through. -/
theorem C2_witness :
    changeRole
      { orgId := some "o", userId := some "m", myRole := OrgRole.manager,
        members := [{ org_id := "o", user_id := "a", role := OrgRole.admin,
                      is_active := true, display_name := "A", email := none },
                    { org_id := "o", user_id := "m", role := OrgRole.manager,
                      is_active := true, display_name := "M", email := none }] }
      "a" OrgRole.member =
      MemberAction.rejected "此組織目前只有 1 位 admin，不能將唯一 admin 降級。" ∧
    toggleActive
      { orgId := some "o", userId := some "m", myRole := OrgRole.manager,
        members := [{ org_id := "o", user_id := "a", role := OrgRole.admin,
                      is_active := true, display_name := "A", email := none },
                    { org_id := "o", user_id := "m", role := OrgRole.manager,
                      is_active := true, display_name := "M", email := none }] }
      "a" = MemberAction.rejected "此組織目前只有 1 位 admin，不能停用唯一 admin。" ∧
    changeRole
      { orgId := some "o", userId := some "a", myRole := OrgRole.admin,
        members := [{ org_id := "o", user_id := "a", role := OrgRole.admin,
                      is_active := true, display_name := "A", email := none },
                    { org_id := "o", user_id := "b", role := OrgRole.admin,
                      is_active := true, display_name := "B", email := none }] }
      "b" OrgRole.member = MemberAction.roleUpdate "o" "b" OrgRole.member ∧
    toggleActive
      { orgId := some "o", userId := some "a", myRole := OrgRole.admin,
        members := [{ org_id := "o", user_id := "a", role := OrgRole.admin,
                      is_active := true, display_name := "A", email := none },
                    { org_id := "o", user_id := "b", role := OrgRole.admin,
                      is_active := true, display_name := "B", email := none }] }
      "b" = MemberAction.activeUpdate "o" "b" false := by
  have h1 := C2_sole_admin_guard
    { orgId := some "o", userId := some "m", myRole := OrgRole.manager,
      members := [{ org_id := "o", user_id := "a", role := OrgRole.admin,
                    is_active := true, display_name := "A", email := none },
                  { org_id := "o", user_id := "m", role := OrgRole.manager,
                    is_active := true, display_name := "M", email := none }] }
    "o" "a"
    { org_id := "o", user_id := "a", role := OrgRole.admin,
      is_active := true, display_name := "A", email := none }
    OrgRole.member rfl rfl (by decide)
  have h2 := C2_sole_admin_guard
    { orgId := some "o", userId := some "a", myRole := OrgRole.admin,
      members := [{ org_id := "o", user_id := "a", role := OrgRole.admin,
                    is_active := true, display_name := "A", email := none },
                  { org_id := "o", user_id := "b", role := OrgRole.admin,
                    is_active := true, display_name := "B", email := none }] }
    "o" "b"
    { org_id := "o", user_id := "b", role := OrgRole.admin,
      is_active := true, display_name := "B", email := none }
    OrgRole.member rfl rfl (by decide)
  exact ⟨(h1.1 (by decide)).1 (by decide), (h1.1 (by decide)).2 (by decide),
         (h2.2 (by decide)).1, (h2.2 (by decide)).2 (by decide)⟩

/-- Counterexample for C7: a supervisor changing a plain member's role to
admin gets the role update issued, although the claim says this surface
always rejects admin promotion. -/
theorem C7_counterexample :
    changeRole
      { orgId := some "o", userId := some "a", myRole := OrgRole.admin,
        members := [{ org_id := "o", user_id := "b", role := OrgRole.member,
                      is_active := true, display_name := "B", email := none }] }
      "b" OrgRole.admin = MemberAction.roleUpdate "o" "b" OrgRole.admin := by
  rfl

/-- Claim C7 (amended): the general member-management surface permits admin
promotion: whenever an organization is selected and the actor is a
supervisor, setting any target's role to admin issues the role update; the
sole-admin guard never fires because the new role is admin. -/
theorem C7_amended (st : MembersState) (o tid : String)
    (horg : st.orgId = some o) (hsup : isSupervisor st = true) :
    changeRole st tid OrgRole.admin = MemberAction.roleUpdate o tid OrgRole.admin := by
  rcases hf : st.members.find? (fun m => m.user_id == tid) with _ | target
  · simp [changeRole, horg, hsup, hf]
  · simp [changeRole, horg, hsup, hf]

/-- Witness for C7 (amended): a manager promoting a member to admin issues
the update. -/
theorem C7_witness :
    changeRole
      { orgId := some "o", userId := some "a", myRole := OrgRole.manager,
        members := [{ org_id := "o", user_id := "c", role := OrgRole.member,
                      is_active := true, display_name := "C", email := none }] }
      "c" OrgRole.admin = MemberAction.roleUpdate "o" "c" OrgRole.admin :=
  C7_amended _ "o" "c" rfl rfl

/-- Counterexample for C8: a member-role actor attempting self-deactivation
is stopped by the supervisor guard with a silent return, not with the
descriptive self-targeting rejection reason the claim requires. -/
theorem C8_counterexample :
    toggleActive
      { orgId := some "o", userId := some "m", myRole := OrgRole.member,
        members := [{ org_id := "o", user_id := "m", role := OrgRole.member,
                      is_active := true, display_name := "M", email := none }] }
      "m" = MemberAction.noop := by
  rfl

/-- Claim C8 (amended): self-deactivation never issues an update, whatever
the actor's role; when the actor is a supervisor with an organization
selected the failure surfaces the descriptive self-targeting reason, while a
non-supervisor actor is stopped earlier by the role guard with no reason. -/
theorem C8_amended (st : MembersState) (tid : String) (hself : st.userId = some tid) :
    (∀ oid uid b, toggleActive st tid ≠ MemberAction.activeUpdate oid uid b) ∧
    (∀ oid uid r, toggleActive st tid ≠ MemberAction.roleUpdate oid uid r) ∧
    (∀ o2, st.orgId = some o2 → isSupervisor st = true →
      toggleActive st tid = MemberAction.rejected "不能停用自己（避免把自己鎖在系統外）。") := by
  have hb : (st.userId == some tid) = true := by simp [hself]
  refine ⟨?_, ?_, ?_⟩
  · intro oid uid b
    rcases ho : st.orgId with _ | o2
    · simp [toggleActive, ho]
    · cases hs : isSupervisor st
      · simp [toggleActive, ho, hs]
      · simp [toggleActive, ho, hs, hb]
  · intro oid uid r
    rcases ho : st.orgId with _ | o2
    · simp [toggleActive, ho]
    · cases hs : isSupervisor st
      · simp [toggleActive, ho, hs]
      · simp [toggleActive, ho, hs, hb]
  · intro o2 ho hs
    simp [toggleActive, ho, hs, hb]

/-- Witness for C8 (amended): an admin attempting self-deactivation gets the
descriptive self-targeting rejection and no update. -/
theorem C8_witness :
    toggleActive
      { orgId := some "o", userId := some "a", myRole := OrgRole.admin,
        members := [{ org_id := "o", user_id := "a", role := OrgRole.admin,
                      is_active := true, display_name := "A", email := none }] }
      "a" = MemberAction.rejected "不能停用自己（避免把自己鎖在系統外）。" ∧
    toggleActive
      { orgId := some "o", userId := some "a", myRole := OrgRole.admin,
        members := [{ org_id := "o", user_id := "a", role := OrgRole.admin,
                      is_active := true, display_name := "A", email := none }] }
      "a" ≠ MemberAction.activeUpdate "o" "a" false := by
  have h := C8_amended
    { orgId := some "o", userId := some "a", myRole := OrgRole.admin,
      members := [{ org_id := "o", user_id := "a", role := OrgRole.admin,
                    is_active := true, display_name := "A", email := none }] }
    "a" rfl
  exact ⟨h.2.2 "o" rfl rfl, h.1 "o" "a" false⟩
